import Mathlib

/-!
Verification development for the SWE percent-of-normal pipeline
(src/get_swe_normals.py).  The relevant Python functions are shallowly
embedded below: grids are maps from an abstract cell type to `Option ℚ`
(`none` models a missing value / NaN), a time-indexed data array is its
time index together with the per-timestamp grids, and the interactive
and I/O parts of `main` are modelled as a trace of effects over an
environment supplying the console input lines and each dataset family
fetch result.
-/

set_option maxRecDepth 8000

/-- A calendar timestamp (year, month, day, hour), as used by the
scripts `dt.datetime(year, month, day, hour)` values. -/
structure Timestamp where
  year : Int
  month : Int
  day : Int
  hour : Int
deriving DecidableEq, Repr

/-- Strict chronological order on timestamps (lexicographic). -/
def Timestamp.earlier (a b : Timestamp) : Prop :=
  a.year < b.year ∨ (a.year = b.year ∧ (a.month < b.month ∨ (a.month = b.month ∧
    (a.day < b.day ∨ (a.day = b.day ∧ a.hour < b.hour)))))

instance (a b : Timestamp) : Decidable (a.earlier b) := by
  unfold Timestamp.earlier
  exact inferInstance

/-- Model of `pandas.date_range(start, end, freq="AS")` with the default
`normalize=False`: the list of all timestamps in `[start, end]` that lie
on the `YearBegin` anchor, which is January 1 of some year (regardless of
the month of `start`), each carrying the time of day of `start`.  The
start is rolled forward to the next January 1 unless it already is a
January 1. -/
def dateRangeAS (s e : Timestamp) : List Timestamp :=
  let firstYear : Int := if s.month = 1 ∧ s.day = 1 then s.year else s.year + 1
  let lastYear : Int :=
    if 1 < e.month ∨ (e.month = 1 ∧ (1 < e.day ∨ (e.day = 1 ∧ s.hour ≤ e.hour)))
    then e.year else e.year - 1
  (List.range (lastYear + 1 - firstYear).toNat).map
    (fun i => ⟨firstYear + Int.ofNat i, 1, 1, s.hour⟩)

/-- A time-indexed gridded series: an xarray DataArray with a `time`
index and, for each timestamp, a grid of optional rational values over
an abstract spatial cell type `C` (`none` = NaN / missing). -/
structure DataArray (C : Type) where
  times : List Timestamp
  data : Timestamp → C → Option ℚ

/-- NaN-skipping mean along the list (`xarray` `.mean` with the default
`skipna=True`): average the present values; all missing or an empty
selection gives a missing value. -/
def nanmean (vals : List (Option ℚ)) : Option ℚ :=
  let present := vals.filterMap id
  if present.length = 0 then none else some (present.sum / (present.length : ℚ))

/-- The `month_firsts` index built by `get_normals` (lines 64-75): a
`pd.date_range` with `freq="AS"` from `(2008, month, 1, 5)` to
`(year-1, month, 1, 5)` for the snodas family, and from
`(2000, month, 1, 0)` to `(year-1, month, 1, 0)` for copernicus. -/
def month_firsts (year month : Int) (snodas : Bool) : List Timestamp :=
  if snodas then dateRangeAS ⟨2008, month, 1, 5⟩ ⟨year - 1, month, 1, 5⟩
  else dateRangeAS ⟨2000, month, 1, 0⟩ ⟨year - 1, month, 1, 0⟩

/-- The timestamps `get_normals` keeps (line 78):
`da.sel(time=da.time.isin(month_firsts))`, i.e. the members of the
series time index that occur in `month_firsts`, in index order. -/
def selectedTimes (da : DataArray C) (year month : Int) (snodas : Bool) : List Timestamp :=
  da.times.filter (fun t => decide (t ∈ month_firsts year month snodas))

/-- Embedding of `get_normals` (lines 62-82): filter the series to the
`month_firsts` timestamps and take the per-cell mean over time. -/
def get_normals (da : DataArray C) (year month : Int) (snodas : Bool) : C → Option ℚ :=
  fun c => nanmean ((selectedTimes da year month snodas).map (fun t => da.data t c))

/-- Failure conditions of the embedded pipeline. -/
inductive PipelineError where
  | missingTargetPeriod
deriving DecidableEq, Repr

/-- The single target anchor timestamp `first_of_month` built by
`get_percent_of_normal` (lines 86-89): hour 5 for snodas, hour 0 for
copernicus. -/
def target_anchor (year month : Int) (snodas : Bool) : Timestamp :=
  if snodas then ⟨year, month, 1, 5⟩ else ⟨year, month, 1, 0⟩

/-- Cell-wise `(target / normals) * 100` with numpy missing-value
behaviour: a missing operand, or a zero normals cell (whose quotient is
not a finite percentage), yields a missing cell. -/
def divCell (t n : Option ℚ) : Option ℚ :=
  match t, n with
  | some tv, some nv => if nv = 0 then none else some (tv / nv * 100)
  | _, _ => none

/-- Embedding of `get_percent_of_normal` (lines 84-95): select exactly
the target anchor timestamp with `da.sel(time=first_of_month)` - a
`KeyError` (missing target period) when absent - and divide by the
normals grid, scaled to a percentage. -/
def get_percent_of_normal (da : DataArray C) (normals : C → Option ℚ)
    (year month : Int) (snodas : Bool) : Except PipelineError (C → Option ℚ) :=
  let first_of_month := target_anchor year month snodas
  if first_of_month ∈ da.times then
    Except.ok (fun c => divCell (da.data first_of_month c) (normals c))
  else Except.error PipelineError.missingTargetPeriod

/-- Earliest valid anchor year of each dataset family convention:
2008 for the regional (snodas) family, 2000 for the global one. -/
def earliest_valid_year (snodas : Bool) : Int :=
  if snodas then 2008 else 2000

/-- The candidate anchor timestamps the specification describes for the
normals computation, stated here only for comparison with the code:
(candidate year, given month, day 1, the convention anchor hour) for
every candidate year from the earliest valid year through year - 1. -/
def claimedAnchors (year month : Int) (snodas : Bool) : List Timestamp :=
  let e := earliest_valid_year snodas
  let h : Int := if snodas then 5 else 0
  (List.range (year - e).toNat).map (fun i => ⟨e + (i : Int), month, 1, h⟩)

/-- The normals grid the specification describes, stated here only for
comparison with `get_normals`: the per-cell NaN-skipping mean over the
series timestamps that are claimed candidate anchors. -/
def claimedNormals (da : DataArray C) (year month : Int) (snodas : Bool) : C → Option ℚ :=
  fun c => nanmean ((da.times.filter
    (fun t => decide (t ∈ claimedAnchors year month snodas))).map (fun t => da.data t c))

/-- Model of Python `int(str)` on the input strings: optional
surrounding ASCII whitespace, an optional single sign, then one or more
decimal digits (digit-group underscores are not modelled; no input in
this development uses them). `none` models the `ValueError`. -/
def pyInt (s : String) : Option Int :=
  let core := ((s.data.dropWhile (fun c => c = ' ' ∨ c = '\t' ∨ c = '\n' ∨ c = '\r')).reverse.dropWhile
    (fun c => c = ' ' ∨ c = '\t' ∨ c = '\n' ∨ c = '\r')).reverse
  let digitsVal : List Char → Option Nat := fun cs =>
    if cs ≠ [] ∧ cs.all (fun c => '0' ≤ c ∧ c ≤ '9') then
      some (cs.foldl (fun a c => 10 * a + (c.toNat - Char.toNat '0')) 0)
    else none
  match core with
  | '+' :: rest => (digitsVal rest).map (fun n => (n : Int))
  | '-' :: rest => (digitsVal rest).map (fun n => -(n : Int))
  | rest => (digitsVal rest).map (fun n => (n : Int))

/-- The effective input string of one prompt: `input(...) or str(default)`
(lines 42 and 51) - an empty line falls back to the default rendered
with `str`. -/
def effInput (default : Int) (line : String) : String :=
  if line = "" then toString default else line

/-- Reading one line from the pending console input. -/
def readLine (ins : List String) : String × List String :=
  match ins with
  | [] => ("", [])
  | s :: rest => (s, rest)

/-- Embedding of `get_month_year` (lines 37-60) over the console input
lines, with the current date supplied as `(default_year, default_month)`.
Returns the `(year, month)` result, the unconsumed input lines, and the
error messages printed. -/
def get_month_year (default_year default_month : Int) (ins : List String) :
    (Option Int × Option Int) × List String × List String :=
  let ry := readLine ins
  match pyInt (effInput default_year ry.1) with
  | none => ((none, none), ry.2, ["Invalid year. Please enter a 4-digit number."])
  | some year =>
    if year < 1900 ∨ year > 2100 then
      ((none, none), ry.2, ["Invalid year. Please enter a 4-digit number."])
    else
      let rm := readLine ry.2
      match pyInt (effInput default_month rm.1) with
      | none => ((none, none), rm.2, ["Invalid month. Please enter a number from 1 to 12."])
      | some month =>
        if month < 1 ∨ month > 12 then
          ((none, none), rm.2, ["Invalid month. Please enter a number from 1 to 12."])
        else ((some year, some month), rm.2, [])

/-- A Boolean rendering of the invalid-input condition for one field:
the string fails to parse as an integer or parses outside `[lo, hi]`. -/
def invalidIntB (lo hi : Int) (s : String) : Bool :=
  match pyInt s with
  | none => true
  | some v => decide (v < lo) || decide (hi < v)

/-- Observable effects of one `main` run, in order: a `get_dataset`
call on a container, a raster written to a filename, or a console
message printed. -/
inductive Effect where
  | fetch : String → Effect
  | write : String → Effect
  | msg : String → Effect
deriving DecidableEq, Repr

/-- Whether an effect touches the outside world (data source contact or
output file), as opposed to a console message. -/
def Effect.isAction : Effect → Bool
  | Effect.fetch _ => true
  | Effect.write _ => true
  | Effect.msg _ => false

/-- The filenames written along a trace. -/
def writesOf (l : List Effect) : List String :=
  l.filterMap (fun e => match e with | Effect.write s => some s | _ => none)

/-- Modelled from the spec: the Dataset Accessor (`get_dataset` plus the
hard-coded spatial subset, lines 22-35 and 105-121) is out-of-scope
external I/O, so the environment of a run supplies the console input
lines, the current date, and each dataset family fetch outcome - the
already clipped series on success, or a `DataSourceUnavailable` failure. -/
structure Env (C : Type) where
  inputs : List String
  todayYear : Int
  todayMonth : Int
  snodasData : Except Unit (DataArray C)
  copernicusData : Except Unit (DataArray C)

/-- The lowercase three-letter month abbreviation of
`dt.date(year, month, 1).strftime("%b").lower()` (line 145) in the
C locale, for the validated months 1-12. -/
def monthAbbrev : Int → String
  | 1 => "jan"
  | 2 => "feb"
  | 3 => "mar"
  | 4 => "apr"
  | 5 => "may"
  | 6 => "jun"
  | 7 => "jul"
  | 8 => "aug"
  | 9 => "sep"
  | 10 => "oct"
  | 11 => "nov"
  | 12 => "dec"
  | _ => ""

/-- Embedding of `main` (lines 98-153) as the trace of its effects.  An
unhandled failure (fetch error, missing target anchor) ends the trace at
that point: there is no error isolation between the two dataset family
branches. -/
def pipelineMain (env : Env C) : List Effect :=
  let r := get_month_year env.todayYear env.todayMonth env.inputs
  let pre := r.2.2.map Effect.msg
  match r.1.1, r.1.2 with
  | some year, some month =>
    pre ++ [Effect.fetch "snodas-v1"] ++
    (match env.snodasData with
     | Except.error _ => []
     | Except.ok snodas_da =>
       [Effect.msg "snodas dataset loaded", Effect.fetch "copernicus"] ++
       (match env.copernicusData with
        | Except.error _ => []
        | Except.ok cop_da =>
          let snodas_normals := get_normals snodas_da year month true
          let copernicus_normals := get_normals cop_da year month false
          [Effect.msg "processing percent of normal"] ++
          (match get_percent_of_normal snodas_da snodas_normals year month true with
           | Except.error _ => []
           | Except.ok _ =>
             (match get_percent_of_normal cop_da copernicus_normals year month false with
              | Except.error _ => []
              | Except.ok _ =>
                let month_str := monthAbbrev month
                let sfn := "snodas_prcnt_of_norm_" ++ month_str ++ "_" ++ toString year ++ ".tif"
                let cfn := "copernicus_prcnt_of_norm_" ++ month_str ++ "_" ++ toString year ++ ".tif"
                [Effect.write sfn,
                 Effect.msg ("Saved percent-of-normal raster to: " ++ sfn),
                 Effect.write cfn,
                 Effect.msg ("Saved percent-of-normal raster to: " ++ cfn)]))))
  | _, _ => pre ++ [Effect.msg "Exiting due to invalid input."]

/-- The percent-of-normal cell value at one cell, `none` when the run
failed: a convenient closed observation of `get_percent_of_normal`. -/
def percentCellAt (da : DataArray C) (normals : C → Option ℚ)
    (year month : Int) (snodas : Bool) (c : C) : Option (Option ℚ) :=
  match get_percent_of_normal da normals year month snodas with
  | Except.ok g => some (g c)
  | Except.error _ => none

/-- A one-cell series holding a single observation at the regional
March 2022 anchor, value 50. -/
def exDA1 : DataArray Unit :=
  ⟨[⟨2022, 3, 1, 5⟩], fun t _ => if t = ⟨2022, 3, 1, 5⟩ then some 50 else none⟩

/-- A one-cell series whose March 2023 regional target value is 0. -/
def da02 : DataArray Unit := ⟨[⟨2023, 3, 1, 5⟩], fun _ _ => some 0⟩

/-- An all-zero normals grid. -/
def normals02 : Unit → Option ℚ := fun _ => some 0

/-- A one-cell series whose March 2023 regional target value is 7. -/
def daW2 : DataArray Unit := ⟨[⟨2023, 3, 1, 5⟩], fun _ _ => some 7⟩

/-- A normals grid equal to the target grid of `daW2`. -/
def normalsW2 : Unit → Option ℚ := fun _ => some 7

/-- A one-cell series holding only the global July 2021 anchor. -/
def daW3 : DataArray Unit := ⟨[⟨2021, 7, 1, 0⟩], fun _ _ => some 3⟩

/-- A constant normals grid of value 1. -/
def normalsW3 : Unit → Option ℚ := fun _ => some 1

/-- A one-cell series holding only the regional January 2010 anchor. -/
def daW4 : DataArray Unit := ⟨[⟨2010, 1, 1, 5⟩], fun _ _ => some 1⟩

/-- A one-cell series holding a single observation at the regional
January 2008 anchor, value 42. -/
def exDA5 : DataArray Unit :=
  ⟨[⟨2008, 1, 1, 5⟩], fun t _ => if t = ⟨2008, 1, 1, 5⟩ then some 42 else none⟩

/-- A one-cell series holding only the regional March 2008 anchor. -/
def daW5 : DataArray Unit := ⟨[⟨2008, 3, 1, 5⟩], fun _ _ => some 9⟩

/-- A series with an empty time index. -/
def emptyDA : DataArray Unit := ⟨[], fun _ _ => none⟩

/-- An environment whose year input line does not parse. -/
def envW6 : Env Unit := ⟨["abc", "3"], 2026, 10, Except.ok emptyDA, Except.ok emptyDA⟩

/-- A one-cell series holding the global March 2023 anchor. -/
def daC7 : DataArray Unit := ⟨[⟨2023, 3, 1, 0⟩], fun _ _ => some 7⟩

/-- An environment with valid input where the regional (snodas) fetch
fails while the global (copernicus) store is available. -/
def envC7 : Env Unit := ⟨["2023", "3"], 2026, 10, Except.error (), Except.ok daC7⟩

/-- Another environment with valid input and a failing regional fetch. -/
def envW7 : Env Unit := ⟨["2024", "2"], 2026, 10, Except.error (), Except.ok emptyDA⟩

/-- A one-cell series holding the regional March 2023 target anchor. -/
def daW9s : DataArray Unit := ⟨[⟨2023, 3, 1, 5⟩], fun _ _ => some 4⟩

/-- A one-cell series holding the global March 2023 target anchor. -/
def daW9c : DataArray Unit := ⟨[⟨2023, 3, 1, 0⟩], fun _ _ => some 4⟩

/-- An environment for a fully successful March 2023 run. -/
def envW9 : Env Unit := ⟨["2023", "3"], 2026, 10, Except.ok daW9s, Except.ok daW9c⟩

/-! Helper lemmas shared across the claim theorems. -/

/-- Every member of a `dateRangeAS` range is a January 1 timestamp of
some year at most the end year, carrying the start hour. -/
theorem mem_dateRangeAS (s e t : Timestamp) (h : t ∈ dateRangeAS s e) :
    t.year ≤ e.year ∧ t.month = 1 ∧ t.day = 1 ∧ t.hour = s.hour := by
  simp only [dateRangeAS, List.mem_map, List.mem_range] at h
  obtain ⟨i, hi, rfl⟩ := h
  refine ⟨?_, rfl, rfl, rfl⟩
  show (if s.month = 1 ∧ s.day = 1 then s.year else s.year + 1) + Int.ofNat i ≤ e.year
  simp only [Int.ofNat_eq_natCast]
  split_ifs at hi ⊢ <;> omega

/-- Parsing the rendered year back: round trip over the valid range. -/
theorem pyIntYearRound : ∀ k : Fin 201,
    pyInt (toString ((1900 : Int) + (k.val : Int))) = some ((1900 : Int) + (k.val : Int)) := by
  decide

/-- Parsing the rendered month back: round trip over the valid range. -/
theorem pyIntMonthRound : ∀ k : Fin 12,
    pyInt (toString ((1 : Int) + (k.val : Int))) = some ((1 : Int) + (k.val : Int)) := by
  decide

/-- Round trip of `int(str(y))` for any year in the accepted range. -/
theorem pyInt_toString_year (y : Int) (h1 : 1900 ≤ y) (h2 : y ≤ 2100) :
    pyInt (toString y) = some y := by
  have hk : y = 1900 + ((y - 1900).toNat : Int) := by omega
  have hlt : (y - 1900).toNat < 201 := by omega
  have h := pyIntYearRound ⟨(y - 1900).toNat, hlt⟩
  rw [hk]
  exact h

/-- Round trip of `int(str(m))` for any month in the accepted range. -/
theorem pyInt_toString_month (m : Int) (h1 : 1 ≤ m) (h2 : m ≤ 12) :
    pyInt (toString m) = some m := by
  have hk : m = 1 + ((m - 1).toNat : Int) := by omega
  have hlt : (m - 1).toNat < 12 := by omega
  have h := pyIntMonthRound ⟨(m - 1).toNat, hlt⟩
  rw [hk]
  exact h

/-- Console messages contribute no written files. -/
theorem writesOf_map_msg (l : List String) : writesOf (l.map Effect.msg) = [] := by
  induction l with
  | nil => rfl
  | cons a l ih => simp [writesOf, List.filterMap_cons]

/-- The NaN-skipping mean of a single present value is that value. -/
theorem nanmean_singleton (q : ℚ) : nanmean [some q] = some q := by
  simp [nanmean]

/-- A fetch effect never occurs among console messages. -/
theorem fetch_not_mem_map_msg (s : String) (l : List String) :
    Effect.fetch s ∉ l.map Effect.msg := by
  simp [List.mem_map]

/-! The claim theorems. -/

/-- C1: the claim states that `get_normals` averages over the series
timestamps of the form (candidate year, given month, day 1, anchor hour)
for candidate years from the earliest valid year through year - 1.  The
code instead builds `month_firsts` with `pd.date_range(..., freq="AS")`,
whose anchors are January 1 timestamps regardless of the given month,
contradicting the comments at lines 63 and 68.  At the failing input
(regional convention, year 2023, month 3, a series holding exactly the
March 2022 anchor with value 50) the code selects nothing and returns a
missing value, while the claimed computation yields 50. -/
theorem c1_freqAS_january_anchoring :
    month_firsts 2023 3 true ≠ claimedAnchors 2023 3 true ∧
    (⟨2022, 3, 1, 5⟩ : Timestamp) ∉ month_firsts 2023 3 true ∧
    (⟨2010, 1, 1, 5⟩ : Timestamp) ∈ month_firsts 2023 3 true ∧
    (⟨2010, 1, 1, 5⟩ : Timestamp) ∉ claimedAnchors 2023 3 true ∧
    get_normals exDA1 2023 3 true () = none ∧
    claimedNormals exDA1 2023 3 true () = some 50 := by
  refine ⟨by decide, by decide, by decide, by decide, by decide, ?_⟩
  have h1 : claimedNormals exDA1 2023 3 true () = nanmean [some 50] := rfl
  rw [h1, nanmean_singleton]

/-- C2 counterexample: at a cell where the target value and the normals
value are both 0, the quotient is numerically undefined (numpy 0/0 is
NaN), so the output cell is missing rather than exactly 100, refuting
the claim that every cell with target equal to normals yields 100. -/
theorem c2_zero_cell_cex :
    da02.data (target_anchor 2023 3 true) () = some 0 ∧
    normals02 () = some 0 ∧
    percentCellAt da02 normals02 2023 3 true () = some none ∧
    some (none : Option ℚ) ≠ some (some (100 : ℚ)) := by
  refine ⟨by decide, by decide, by decide, by decide⟩

/-- C2 (amended): when the target anchor timestamp is present in the
series, `get_percent_of_normal` returns exactly the cell-wise
(target / normals) * 100 grid with no clamping, and any cell where the
target value equals the normals value, both present and nonzero, yields
exactly 100. -/
theorem c2_percent_of_normal_formula :
    ∀ (C : Type) (da : DataArray C) (normals : C → Option ℚ) (year month : Int)
      (snodas : Bool),
    target_anchor year month snodas ∈ da.times →
    get_percent_of_normal da normals year month snodas =
      Except.ok (fun c => divCell (da.data (target_anchor year month snodas) c) (normals c)) ∧
    ∀ (c : C) (v : ℚ), da.data (target_anchor year month snodas) c = some v →
      normals c = some v → v ≠ 0 →
      divCell (da.data (target_anchor year month snodas) c) (normals c) = some 100 := by
  intro C da normals year month snodas h
  constructor
  · simp only [get_percent_of_normal]
    rw [if_pos h]
  · intro c v h1 h2 hv
    rw [h1, h2]
    simp only [divCell, if_neg hv]
    rw [div_self hv, one_mul]

/-- C2 witness: a concrete run where target and normals both hold 7 at
the cell, giving exactly 100. -/
theorem c2_percent_of_normal_formula_wit :
    target_anchor 2023 3 true ∈ daW2.times ∧
    divCell (daW2.data (target_anchor 2023 3 true) ()) (normalsW2 ()) = some 100 :=
  ⟨by decide,
   (c2_percent_of_normal_formula Unit daW2 normalsW2 2023 3 true (by decide)).2 () 7
     (by decide) (by decide) (by decide)⟩

/-- C3: when the target anchor timestamp is absent from the series time
index, `get_percent_of_normal` fails with the missing-target-period
condition instead of selecting a nearby timestamp; when it is present,
exactly that timestamp grid is selected. -/
theorem c3_missing_target_period :
    ∀ (C : Type) (da : DataArray C) (normals : C → Option ℚ) (year month : Int)
      (snodas : Bool),
    (target_anchor year month snodas ∉ da.times →
      get_percent_of_normal da normals year month snodas =
        Except.error PipelineError.missingTargetPeriod) ∧
    (target_anchor year month snodas ∈ da.times →
      get_percent_of_normal da normals year month snodas =
        Except.ok (fun c => divCell (da.data (target_anchor year month snodas) c) (normals c))) := by
  intro C da normals year month snodas
  constructor
  · intro h
    simp only [get_percent_of_normal]
    rw [if_neg h]
  · intro h
    simp only [get_percent_of_normal]
    rw [if_pos h]

/-- C3 witness: for a series holding only the July 2021 global anchor,
the July 2022 request fails with the missing-target-period condition
and the July 2021 request selects that timestamp grid (3 over a normal
of 1 gives 300 percent). -/
theorem c3_missing_target_period_wit :
    (target_anchor 2022 7 false ∉ daW3.times ∧
      get_percent_of_normal daW3 normalsW3 2022 7 false =
        Except.error PipelineError.missingTargetPeriod) ∧
    (target_anchor 2021 7 false ∈ daW3.times ∧
      percentCellAt daW3 normalsW3 2021 7 false () = some (some 300)) :=
  ⟨⟨by decide, (c3_missing_target_period Unit daW3 normalsW3 2022 7 false).1 (by decide)⟩,
   ⟨by decide, by
      have h := (c3_missing_target_period Unit daW3 normalsW3 2021 7 false).2 (by decide)
      simp only [percentCellAt, h]
      have hd : divCell (daW3.data (target_anchor 2021 7 false) ()) (normalsW3 ()) =
          some ((3 : ℚ) / 1 * 100) := by
        show divCell (some 3) (some 1) = some (3 / 1 * 100)
        simp only [divCell]
        rw [if_neg (by norm_num)]
      rw [hd]
      norm_num⟩⟩

/-- C4: every timestamp that `get_normals` includes in its mean lies in
a year at most year - 1 and is strictly earlier than the target anchor
timestamp; nothing from the target year or later ever contributes. -/
theorem c4_normals_strictly_historical :
    ∀ (C : Type) (da : DataArray C) (year month : Int) (snodas : Bool) (t : Timestamp),
    t ∈ selectedTimes da year month snodas →
    t.year ≤ year - 1 ∧ t.earlier (target_anchor year month snodas) := by
  intro C da year month snodas t h
  have hmem : t ∈ month_firsts year month snodas := by
    have h2 := List.mem_filter.mp h
    exact of_decide_eq_true h2.2
  cases snodas
  · rw [show month_firsts year month false =
        dateRangeAS ⟨2000, month, 1, 0⟩ ⟨year - 1, month, 1, 0⟩ from rfl] at hmem
    obtain ⟨hy, -, -, -⟩ := mem_dateRangeAS _ _ _ hmem
    have hy2 : t.year ≤ year - 1 := hy
    refine ⟨hy2, ?_⟩
    have hta : (target_anchor year month false).year = year := rfl
    unfold Timestamp.earlier
    exact Or.inl (by rw [hta]; omega)
  · rw [show month_firsts year month true =
        dateRangeAS ⟨2008, month, 1, 5⟩ ⟨year - 1, month, 1, 5⟩ from rfl] at hmem
    obtain ⟨hy, -, -, -⟩ := mem_dateRangeAS _ _ _ hmem
    have hy2 : t.year ≤ year - 1 := hy
    refine ⟨hy2, ?_⟩
    have hta : (target_anchor year month true).year = year := rfl
    unfold Timestamp.earlier
    exact Or.inl (by rw [hta]; omega)

/-- C4 witness: the regional January 2010 anchor is included for a
January 2023 request and indeed lies before 2023. -/
theorem c4_normals_strictly_historical_wit :
    (⟨2010, 1, 1, 5⟩ : Timestamp) ∈ selectedTimes daW4 2023 1 true ∧
    ((⟨2010, 1, 1, 5⟩ : Timestamp).year ≤ 2023 - 1 ∧
      (⟨2010, 1, 1, 5⟩ : Timestamp).earlier (target_anchor 2023 1 true)) :=
  ⟨by decide, c4_normals_strictly_historical Unit daW4 2023 1 true ⟨2010, 1, 1, 5⟩ (by decide)⟩

/-- C5 counterexample: for the regional convention and month 1 at
year 2009 (earliest valid year + 1), the code matches the January 2008
anchor when the series holds it - the count of matched anchors is one,
not zero, and the result is the value 42 rather than an all-missing
grid, refuting the claim for every series and month. -/
theorem c5_january_anchor_cex :
    selectedTimes exDA5 (earliest_valid_year true + 1) 1 true = [⟨2008, 1, 1, 5⟩] ∧
    get_normals exDA5 (earliest_valid_year true + 1) 1 true () = some 42 ∧
    some (42 : ℚ) ≠ (none : Option ℚ) := by
  refine ⟨by decide, ?_, by decide⟩
  have h1 : get_normals exDA5 (earliest_valid_year true + 1) 1 true () =
      nanmean [some 42] := rfl
  rw [h1, nanmean_singleton]

/-- C5 (amended): for every series and month from 2 to 12, a request at
the earliest valid year + 1 matches zero candidate timestamps and
`get_normals` returns an all-missing grid at every cell instead of
failing; for month 1 the single January candidate of the earliest year
can match, so the claim is restricted to the other months. -/
theorem c5_empty_candidates :
    ∀ (snodas : Bool) (month : Int), 2 ≤ month → month ≤ 12 →
    month_firsts (earliest_valid_year snodas + 1) month snodas = [] ∧
    ∀ (C : Type) (da : DataArray C) (c : C),
      get_normals da (earliest_valid_year snodas + 1) month snodas c = none := by
  intro snodas month h2 h12
  have hmf : month_firsts (earliest_valid_year snodas + 1) month snodas = [] := by
    cases snodas
    · rw [show month_firsts (earliest_valid_year false + 1) month false =
          dateRangeAS ⟨2000, month, 1, 0⟩ ⟨2000 + 1 - 1, month, 1, 0⟩ from rfl]
      simp only [dateRangeAS]
      rw [if_neg (by omega), if_pos (by omega)]
      norm_num
    · rw [show month_firsts (earliest_valid_year true + 1) month true =
          dateRangeAS ⟨2008, month, 1, 5⟩ ⟨2008 + 1 - 1, month, 1, 5⟩ from rfl]
      simp only [dateRangeAS]
      rw [if_neg (by omega), if_pos (by omega)]
      norm_num
  refine ⟨hmf, ?_⟩
  intro C da c
  have hsel : selectedTimes da (earliest_valid_year snodas + 1) month snodas = [] := by
    simp only [selectedTimes, hmf]
    exact List.filter_eq_nil_iff.mpr (fun a _ => by simp)
  simp only [get_normals, hsel, List.map_nil]
  rfl

/-- C5 witness: a regional March 2009 request over a series holding the
March 2008 anchor still matches nothing and yields a missing value. -/
theorem c5_empty_candidates_wit :
    (2 ≤ (3 : Int) ∧ (3 : Int) ≤ 12) ∧
    month_firsts (earliest_valid_year true + 1) 3 true = [] ∧
    get_normals daW5 (earliest_valid_year true + 1) 3 true () = none :=
  ⟨⟨by norm_num, by norm_num⟩,
   (c5_empty_candidates true 3 (by norm_num) (by norm_num)).1,
   (c5_empty_candidates true 3 (by norm_num) (by norm_num)).2 Unit daW5 ()⟩

/-- An empty input line falls back to the rendered default. -/
theorem effInput_empty (d : Int) : effInput d "" = toString d := rfl

/-- Typing the rendered default is the same as typing nothing. -/
theorem effInput_toString (d : Int) : effInput d (toString d) = toString d := by
  unfold effInput
  split <;> rfl

/-- When the effective year input is invalid, `get_month_year` reports
the year error and stops before reading the month line. -/
theorem get_month_year_year_invalid (dY dM : Int) (ins : List String)
    (h : invalidIntB 1900 2100 (effInput dY (readLine ins).1) = true) :
    get_month_year dY dM ins = ((none, none), (readLine ins).2,
      ["Invalid year. Please enter a 4-digit number."]) := by
  unfold invalidIntB at h
  cases hp : pyInt (effInput dY (readLine ins).1) with
  | none => simp only [get_month_year, hp]
  | some y =>
    rw [hp] at h
    simp only [Bool.or_eq_true, decide_eq_true_eq] at h
    simp only [get_month_year, hp]
    rw [if_pos (by omega)]

/-- When the effective year input is valid but the effective month input
is invalid, `get_month_year` reports the month error. -/
theorem get_month_year_month_invalid (dY dM : Int) (ins : List String)
    (hy : invalidIntB 1900 2100 (effInput dY (readLine ins).1) = false)
    (hm : invalidIntB 1 12 (effInput dM (readLine (readLine ins).2).1) = true) :
    get_month_year dY dM ins = ((none, none), (readLine (readLine ins).2).2,
      ["Invalid month. Please enter a number from 1 to 12."]) := by
  unfold invalidIntB at hy hm
  cases hp : pyInt (effInput dY (readLine ins).1) with
  | none => rw [hp] at hy; simp at hy
  | some y =>
    rw [hp] at hy
    simp only [Bool.or_eq_false_iff, decide_eq_false_iff_not] at hy
    cases hq : pyInt (effInput dM (readLine (readLine ins).2).1) with
    | none =>
      simp only [get_month_year, hp, hq]
      rw [if_neg (by omega)]
    | some m =>
      rw [hq] at hm
      simp only [Bool.or_eq_true, decide_eq_true_eq] at hm
      simp only [get_month_year, hp, hq]
      rw [if_neg (by omega), if_pos (by omega)]

/-- When both effective inputs are valid, `get_month_year` returns the
parsed pair, which lies in the accepted ranges. -/
theorem get_month_year_valid (dY dM : Int) (ins : List String)
    (hy : invalidIntB 1900 2100 (effInput dY (readLine ins).1) = false)
    (hm : invalidIntB 1 12 (effInput dM (readLine (readLine ins).2).1) = false) :
    ∃ y m : Int, 1900 ≤ y ∧ y ≤ 2100 ∧ 1 ≤ m ∧ m ≤ 12 ∧
      get_month_year dY dM ins = ((some y, some m), (readLine (readLine ins).2).2, []) := by
  unfold invalidIntB at hy hm
  cases hp : pyInt (effInput dY (readLine ins).1) with
  | none => rw [hp] at hy; simp at hy
  | some y =>
    rw [hp] at hy
    simp only [Bool.or_eq_false_iff, decide_eq_false_iff_not] at hy
    cases hq : pyInt (effInput dM (readLine (readLine ins).2).1) with
    | none => rw [hq] at hm; simp at hm
    | some m =>
      rw [hq] at hm
      simp only [Bool.or_eq_false_iff, decide_eq_false_iff_not] at hm
      refine ⟨y, m, by omega, by omega, by omega, by omega, ?_⟩
      simp only [get_month_year, hp, hq]
      rw [if_neg (by omega), if_neg (by omega)]

/-- With no valid `(year, month)`, the run exits right after the input
prompt with only console messages. -/
theorem pipelineMain_invalid {C : Type} (env : Env C)
    (h : (get_month_year env.todayYear env.todayMonth env.inputs).1 = (none, none)) :
    pipelineMain env =
      ((get_month_year env.todayYear env.todayMonth env.inputs).2.2).map Effect.msg ++
        [Effect.msg "Exiting due to invalid input."] := by
  have e1 : (get_month_year env.todayYear env.todayMonth env.inputs).1.1 =
      (none : Option Int) := by rw [h]
  have e2 : (get_month_year env.todayYear env.todayMonth env.inputs).1.2 =
      (none : Option Int) := by rw [h]
  simp only [pipelineMain, e1, e2]

/-- Console messages are never fetch or write effects. -/
theorem all_msgs_not_action (l : List String) (s : String) :
    ((l.map Effect.msg) ++ [Effect.msg s]).all (fun e => !e.isAction) = true := by
  simp [List.all_append, List.all_map, Function.comp, Effect.isAction]

/-- C6: whenever the effective year input or the effective month input
fails to parse as an integer or parses outside [1900, 2100] or [1, 12]
respectively, `get_month_year` returns the pair (none, none) and the
whole run exits with console messages only - no dataset fetch, no grid
computation, no raster written. -/
theorem c6_invalid_input_aborts :
    ∀ (C : Type) (env : Env C),
    (invalidIntB 1900 2100 (effInput env.todayYear (readLine env.inputs).1) = true ∨
     invalidIntB 1 12 (effInput env.todayMonth (readLine (readLine env.inputs).2).1) = true) →
    (get_month_year env.todayYear env.todayMonth env.inputs).1 = (none, none) ∧
    pipelineMain env =
      ((get_month_year env.todayYear env.todayMonth env.inputs).2.2).map Effect.msg ++
        [Effect.msg "Exiting due to invalid input."] ∧
    (pipelineMain env).all (fun e => !e.isAction) = true := by
  intro C env h
  have h1 : (get_month_year env.todayYear env.todayMonth env.inputs).1 = (none, none) := by
    cases hb : invalidIntB 1900 2100 (effInput env.todayYear (readLine env.inputs).1) with
    | true => rw [get_month_year_year_invalid _ _ _ hb]
    | false =>
      have hm : invalidIntB 1 12 (effInput env.todayMonth
          (readLine (readLine env.inputs).2).1) = true := by
        rcases h with h | h
        · rw [h] at hb
          exact Bool.noConfusion hb
        · exact h
      rw [get_month_year_month_invalid _ _ _ hb hm]
  refine ⟨h1, pipelineMain_invalid env h1, ?_⟩
  rw [pipelineMain_invalid env h1]
  exact all_msgs_not_action _ _

/-- C6 witness: the year input line "abc" makes the run exit with the
two messages and nothing else. -/
theorem c6_invalid_input_aborts_wit :
    (get_month_year envW6.todayYear envW6.todayMonth envW6.inputs).1 = (none, none) ∧
    pipelineMain envW6 =
      ((get_month_year envW6.todayYear envW6.todayMonth envW6.inputs).2.2).map Effect.msg ++
        [Effect.msg "Exiting due to invalid input."] ∧
    (pipelineMain envW6).all (fun e => !e.isAction) = true :=
  c6_invalid_input_aborts Unit envW6 (Or.inl (by decide))

/-- C8: an empty year line and an empty month line behave exactly as if
the current calendar year and month had been typed, and when today lies
in the accepted ranges the defaults are returned as the result. -/
theorem c8_empty_input_defaults :
    ∀ (dY dM : Int) (rest : List String),
    (get_month_year dY dM ("" :: "" :: rest)).1 =
      (get_month_year dY dM (toString dY :: toString dM :: rest)).1 ∧
    (1900 ≤ dY → dY ≤ 2100 → 1 ≤ dM → dM ≤ 12 →
      (get_month_year dY dM ("" :: "" :: rest)).1 = (some dY, some dM)) := by
  intro dY dM rest
  constructor
  · simp only [get_month_year, readLine, effInput_empty, effInput_toString]
    cases pyInt (toString dY) with
    | none => rfl
    | some y =>
      by_cases hy : y < 1900 ∨ y > 2100 <;> simp [hy]
  · intro h1 h2 h3 h4
    simp only [get_month_year, readLine, effInput_empty,
      pyInt_toString_year dY h1 h2, pyInt_toString_month dM h3 h4]
    rw [if_neg (by omega), if_neg (by omega)]

/-- C8 witness: with today taken as October 2026, two empty lines give
the same run as typing 2026 and 10 and resolve to (2026, 10). -/
theorem c8_empty_input_defaults_wit :
    (get_month_year 2026 10 ["", ""]).1 =
      (get_month_year 2026 10 [toString (2026 : Int), toString (10 : Int)]).1 ∧
    (get_month_year 2026 10 ["", ""]).1 = (some 2026, some 10) :=
  ⟨(c8_empty_input_defaults 2026 10 []).1,
   (c8_empty_input_defaults 2026 10 []).2 (by norm_num) (by norm_num) (by norm_num) (by norm_num)⟩

/-- C10: `get_month_year` returns either (none, none) or a fully valid
pair with the year in [1900, 2100] and the month in [1, 12]; moreover,
when the effective year input is already invalid it returns at once,
leaving the month line unread and unvalidated. -/
theorem c10_get_month_year_range :
    ∀ (dY dM : Int) (ins : List String),
    ((get_month_year dY dM ins).1 = (none, none) ∨
      ∃ y m : Int, (get_month_year dY dM ins).1 = (some y, some m) ∧
        1900 ≤ y ∧ y ≤ 2100 ∧ 1 ≤ m ∧ m ≤ 12) ∧
    (invalidIntB 1900 2100 (effInput dY (readLine ins).1) = true →
      get_month_year dY dM ins = ((none, none), (readLine ins).2,
        ["Invalid year. Please enter a 4-digit number."])) := by
  intro dY dM ins
  refine ⟨?_, fun h => get_month_year_year_invalid dY dM ins h⟩
  cases hb1 : invalidIntB 1900 2100 (effInput dY (readLine ins).1) with
  | true =>
    left
    rw [get_month_year_year_invalid _ _ _ hb1]
  | false =>
    cases hb2 : invalidIntB 1 12 (effInput dM (readLine (readLine ins).2).1) with
    | true =>
      left
      rw [get_month_year_month_invalid _ _ _ hb1 hb2]
    | false =>
      right
      obtain ⟨y, m, hy1, hy2, hm1, hm2, heq⟩ := get_month_year_valid dY dM ins hb1 hb2
      exact ⟨y, m, by rw [heq], hy1, hy2, hm1, hm2⟩

/-- C10 witness: the unparsable year line "abc" returns at once with
(none, none), leaving the month line "7" unconsumed. -/
theorem c10_get_month_year_range_wit :
    get_month_year 2026 10 ["abc", "7"] = ((none, none), ["7"],
      ["Invalid year. Please enter a 4-digit number."]) :=
  (c10_get_month_year_range 2026 10 ["abc", "7"]).2 (by decide)

/-- Written files distribute over trace concatenation. -/
theorem writesOf_append (l1 l2 : List Effect) :
    writesOf (l1 ++ l2) = writesOf l1 ++ writesOf l2 := by
  simp [writesOf]

/-- C7 counterexample: with valid input, a failing regional (snodas)
fetch and an available global (copernicus) store, the run dies at the
snodas fetch - the copernicus dataset is never fetched and no raster is
written, refuting the claim that the other family pipeline still runs
to completion. -/
theorem c7_no_branch_isolation_cex :
    pipelineMain envC7 = [Effect.fetch "snodas-v1"] ∧
    Effect.fetch "copernicus" ∉ pipelineMain envC7 ∧
    writesOf (pipelineMain envC7) = [] := by
  refine ⟨by decide, by decide, by decide⟩

/-- C7 (amended): the reference `main` does not isolate the dataset
branches - when the regional (snodas) fetch fails with the
data-source-unavailable condition, the whole run aborts at that fetch:
the global (copernicus) dataset is never fetched and no output raster
is written for either family. -/
theorem c7_fetch_failure_aborts_run :
    ∀ (C : Type) (env : Env C) (y m : Int),
    (get_month_year env.todayYear env.todayMonth env.inputs).1 = (some y, some m) →
    env.snodasData = Except.error () →
    pipelineMain env =
      ((get_month_year env.todayYear env.todayMonth env.inputs).2.2).map Effect.msg ++
        [Effect.fetch "snodas-v1"] ∧
    Effect.fetch "copernicus" ∉ pipelineMain env ∧
    writesOf (pipelineMain env) = [] := by
  intro C env y m h1 h2
  have e1 : (get_month_year env.todayYear env.todayMonth env.inputs).1.1 = some y := by
    rw [h1]
  have e2 : (get_month_year env.todayYear env.todayMonth env.inputs).1.2 = some m := by
    rw [h1]
  have hm : pipelineMain env =
      ((get_month_year env.todayYear env.todayMonth env.inputs).2.2).map Effect.msg ++
        [Effect.fetch "snodas-v1"] := by
    simp only [pipelineMain, e1, e2, h2]
    simp
  refine ⟨hm, ?_, ?_⟩
  · rw [hm]
    intro hc
    rcases List.mem_append.mp hc with h | h
    · exact fetch_not_mem_map_msg _ _ h
    · rw [List.mem_singleton] at h
      exact absurd h (by decide)
  · rw [hm, writesOf_append, writesOf_map_msg]
    rfl

/-- C7 witness: a concrete valid-input run with a failing regional
fetch stops at the snodas fetch with nothing written. -/
theorem c7_fetch_failure_aborts_run_wit :
    (get_month_year envW7.todayYear envW7.todayMonth envW7.inputs).1 = (some 2024, some 2) ∧
    (pipelineMain envW7 =
      ((get_month_year envW7.todayYear envW7.todayMonth envW7.inputs).2.2).map Effect.msg ++
        [Effect.fetch "snodas-v1"] ∧
    Effect.fetch "copernicus" ∉ pipelineMain envW7 ∧
    writesOf (pipelineMain envW7) = []) :=
  ⟨by decide, c7_fetch_failure_aborts_run Unit envW7 2024 2 (by decide) rfl⟩

/-- C9: on a successful run for a valid (year, month), exactly two
rasters are written, named
{family}_prcnt_of_norm_{three-letter lowercase month}_{year}.tif for
the snodas and copernicus families in that order. -/
theorem c9_output_filenames :
    ∀ (C : Type) (env : Env C) (y m : Int) (da1 da2 : DataArray C),
    (get_month_year env.todayYear env.todayMonth env.inputs).1 = (some y, some m) →
    env.snodasData = Except.ok da1 →
    env.copernicusData = Except.ok da2 →
    target_anchor y m true ∈ da1.times →
    target_anchor y m false ∈ da2.times →
    writesOf (pipelineMain env) =
      ["snodas_prcnt_of_norm_" ++ monthAbbrev m ++ "_" ++ toString y ++ ".tif",
       "copernicus_prcnt_of_norm_" ++ monthAbbrev m ++ "_" ++ toString y ++ ".tif"] := by
  intro C env y m da1 da2 h1 hs hc ht1 ht2
  have e1 : (get_month_year env.todayYear env.todayMonth env.inputs).1.1 = some y := by
    rw [h1]
  have e2 : (get_month_year env.todayYear env.todayMonth env.inputs).1.2 = some m := by
    rw [h1]
  have hp1 : get_percent_of_normal da1 (get_normals da1 y m true) y m true =
      Except.ok (fun c =>
        divCell (da1.data (target_anchor y m true) c) (get_normals da1 y m true c)) := by
    simp only [get_percent_of_normal]
    rw [if_pos ht1]
  have hp2 : get_percent_of_normal da2 (get_normals da2 y m false) y m false =
      Except.ok (fun c =>
        divCell (da2.data (target_anchor y m false) c) (get_normals da2 y m false c)) := by
    simp only [get_percent_of_normal]
    rw [if_pos ht2]
  simp only [pipelineMain, e1, e2, hs, hc, hp1, hp2]
  simp [writesOf, writesOf_append, writesOf_map_msg, List.filterMap_cons]

/-- C9 witness: the concrete March 2023 run writes exactly
snodas_prcnt_of_norm_mar_2023.tif and then
copernicus_prcnt_of_norm_mar_2023.tif. -/
theorem c9_output_filenames_wit :
    (get_month_year envW9.todayYear envW9.todayMonth envW9.inputs).1 = (some 2023, some 3) ∧
    writesOf (pipelineMain envW9) =
      ["snodas_prcnt_of_norm_" ++ monthAbbrev 3 ++ "_" ++ toString (2023 : Int) ++ ".tif",
       "copernicus_prcnt_of_norm_" ++ monthAbbrev 3 ++ "_" ++ toString (2023 : Int) ++ ".tif"] ∧
    "snodas_prcnt_of_norm_" ++ monthAbbrev 3 ++ "_" ++ toString (2023 : Int) ++ ".tif" =
      "snodas_prcnt_of_norm_mar_2023.tif" :=
  ⟨by decide,
   c9_output_filenames Unit envW9 2023 3 daW9s daW9c (by decide) rfl rfl (by decide) (by decide),
   by decide⟩
